import Mathlib

/-!
Shallow embedding of the Job Finder backend (`src/main.py`): the `/api/jobs`
handler `search_jobs`, its `Job` data model, the Remotive record
normalization, the location/remote filters, the fallback synthesis and the
limit truncation.  The outbound network call is abstracted as an
`UpstreamResponse` parameter: `failure` stands for any network error,
non-success status or malformed payload (all collapsed by the
`try/except: pass` in the source), `success items` for an `r.ok` response
whose JSON body carried the given list of records under the `jobs` key.
-/

/-- A Python value that can sit in the `id` field of a provider record:
`item.get("id")` yields Python `None` when the key is absent (or null),
otherwise typically a string or an integer. -/
inductive PyVal where
  | none
  | str (s : String)
  | int (n : Int)
deriving DecidableEq, Repr

/-- Python `str(...)` on such a value: `str(None) = "None"`. -/
def pyStr : PyVal → String
  | PyVal.none => "None"
  | PyVal.str s => s
  | PyVal.int n => toString n

/-- Python `x or d` for an optional string `x`: yields `d` when `x` is
`None` or the empty string (both falsy), otherwise `x`. -/
def pyOr (o : Option String) (d : String) : String :=
  match o with
  | Option.none => d
  | Option.some s => if s = "" then d else s

/-- Python truthiness of an optional string: `None` and `""` are falsy. -/
def pyTruthy : Option String → Bool
  | Option.none => false
  | Option.some s => s != ""

/-- Contiguous-sublist test on character lists, the meaning of Python's
`needle in hay` on strings. -/
def containsSub (needle : List Char) : List Char → Bool
  | [] => needle.isEmpty
  | c :: t => needle.isPrefixOf (c :: t) || containsSub needle t

/-- Python `needle in hay` on strings. -/
def pyIn (needle hay : String) : Bool :=
  containsSub needle.data hay.data

/-- Python `s.lower()` (character-wise, as `str.lower` acts on each char). -/
def pyLower (s : String) : String :=
  String.mk (s.data.map Char.toLower)

/-- Python `s.strip()`: drop whitespace from both ends. -/
def pyStrip (s : String) : String :=
  String.mk (((s.data.dropWhile Char.isWhitespace).reverse.dropWhile Char.isWhitespace).reverse)

/-- Python `" ".join`-style concatenation with a separator. -/
def pyJoin (sep : String) : List String → String
  | [] => ""
  | [s] => s
  | s :: rest => s ++ sep ++ pyJoin sep rest

/-- Replace every space character of `s` by the string `r`:
Python `s.replace(' ', r)`. -/
def replaceSpacesAux (r : List Char) : List Char → List Char
  | [] => []
  | c :: t => (if c = ' ' then r else [c]) ++ replaceSpacesAux r t

/-- Python `s.replace(' ', r)` on strings. -/
def pyReplaceSpaces (s r : String) : String :=
  String.mk (replaceSpacesAux r.data s.data)

/-- The canonical output record of the API (`class Job(BaseModel)`). -/
structure Job where
  id : String
  title : String
  company : Option String
  location : Option String
  type : Option String
  salary : Option String
  url : String
  source : String
  tags : Option (List String)
  description : Option String
deriving DecidableEq, Repr

/-- A raw Remotive record as the handler reads it: every field is accessed
with `.get`, so every field may be absent.  `id` may hold a non-string
value, stringified on normalization. -/
structure RawItem where
  id : PyVal
  title : Option String
  company_name : Option String
  candidate_required_location : Option String
  job_type : Option String
  salary : Option String
  url : Option String
  tags : Option (List String)
  description : Option String
deriving DecidableEq, Repr

/-- Normalization of one raw record into a `Job` (the `Job(...)` call in the
loop body).  The `Job` model requires `url : str`; a record without a `url`
makes the pydantic constructor raise, which the surrounding `try` swallows,
so normalization is fallible: `none` models that abort. -/
def normalizeJob (item : RawItem) : Option Job :=
  match item.url with
  | Option.none => Option.none
  | Option.some u => Option.some
      { id := pyStr item.id
        title := pyOr item.title "Untitled"
        company := item.company_name
        location := item.candidate_required_location
        type := item.job_type
        salary := item.salary
        url := u
        source := "Remotive"
        tags := item.tags
        description := item.description }

/-- The remote-location synonym set of the source
(`remote_synonyms = {"remote", "anywhere", "worldwide", "global"}`). -/
def remote_synonyms : List String :=
  ["remote", "anywhere", "worldwide", "global"]

/-- The location filter of the loop body: applied only when the caller's
`location` is truthy; keeps the job when the lower-cased filter is a
substring of the lower-cased job location (empty when absent), or when the
lower-cased, stripped filter is a remote synonym and the job location
contains some synonym. -/
def locationKeep (location : Option String) (jobLoc : Option String) : Bool :=
  match location with
  | Option.none => true
  | Option.some l =>
    if l = "" then true
    else if pyIn (pyLower l) (pyLower (jobLoc.getD "")) then true
    else if remote_synonyms.contains (pyStrip (pyLower l))
            && remote_synonyms.any (fun s => pyIn s (pyLower (jobLoc.getD ""))) then true
    else false

/-- The remote filter of the loop body: applied only when `remote is True`;
keeps the job when its location contains some remote synonym. -/
def remoteKeep (remote : Option Bool) (jobLoc : Option String) : Bool :=
  if remote = Option.some true then
    if (["remote", "anywhere", "worldwide", "global"] : List String).any
        (fun s => pyIn s (pyLower (jobLoc.getD ""))) then true
    else false
  else true

/-- The fetch loop over the raw records: normalize each, apply the location
and remote filters, collect survivors in order.  A normalization abort
(pydantic raise) escapes the loop into the `except` clause, keeping the
jobs appended so far. -/
def collectJobs (location : Option String) (remote : Option Bool) : List RawItem → List Job
  | [] => []
  | item :: rest =>
    match normalizeJob item with
    | Option.none => []
    | Option.some job =>
      if locationKeep location job.location && remoteKeep remote job.location then
        job :: collectJobs location remote rest
      else
        collectJobs location remote rest

/-- An abstract upstream outcome: any failure (network error, non-ok status,
malformed payload) versus a successful JSON body with a `jobs` list. -/
inductive UpstreamResponse where
  | failure
  | success (items : List RawItem)
deriving DecidableEq, Repr

/-- The jobs fetched and filtered from the upstream call; empty on any
failure (the `except Exception: pass`). -/
def fetchedJobs (location : Option String) (remote : Option Bool) :
    UpstreamResponse → List Job
  | UpstreamResponse.failure => []
  | UpstreamResponse.success items => collectJobs location remote items

/-- The "joined terms" of the fallback synthesis:
`" ".join([p for p in [query, location] if p])`. -/
def joinTerms (query location : Option String) : String :=
  pyJoin " " ((([query, location] : List (Option String)).filterMap id).filter
    (fun p => p != ""))

/-- The three fixed fallback search providers with their literal URLs,
built from the joined terms `q` exactly as in the source. -/
def fallbackProviders (q : String) : List (String × String) :=
  [("Google Jobs", "https://www.google.com/search?q=" ++ pyReplaceSpaces q "+" ++ "+jobs"),
   ("LinkedIn", "https://www.linkedin.com/jobs/search/?keywords=" ++ pyReplaceSpaces q "%20"),
   ("Indeed", "https://www.indeed.com/jobs?q=" ++ pyReplaceSpaces q "+")]

/-- The synthetic fallback entries: the enumerate loop over the providers. -/
def fallbackJobs (query location : Option String) : List Job :=
  (fallbackProviders (joinTerms query location)).enum.map (fun p =>
    { id := "fallback-" ++ toString p.1
      title := "Search \x27" ++ joinTerms query location ++ "\x27 on " ++ p.2.1
      company := Option.none
      location := location
      type := Option.none
      salary := Option.none
      url := p.2.2
      source := p.2.1
      tags := Option.none
      description := Option.none })

/-- The job list before truncation: the fetched-and-filtered list, replaced
by the fallback entries when it is empty and `query` or `location` is
truthy (`if not jobs and (query or location)`). -/
def assembledJobs (query location : Option String) (remote : Option Bool)
    (upstream : UpstreamResponse) : List Job :=
  let fetched := fetchedJobs location remote upstream
  if fetched.isEmpty && (pyTruthy query || pyTruthy location) then
    fallbackJobs query location
  else
    fetched

/-- The `/api/jobs` handler as a pure function of its query parameters and
the upstream outcome.  `category` and `job_type` only shape the outbound
request, which the `upstream` parameter abstracts, so they do not influence
the pure result.  The final `jobs[:limit]` is `List.take`. -/
def search_jobs (query location category job_type : Option String)
    (remote : Option Bool) (lim : Nat) (upstream : UpstreamResponse) : List Job :=
  (assembledJobs query location remote upstream).take lim

/-- A concrete raw record with a `url` but no `title`, for evaluation. -/
def rawNoTitle : RawItem :=
  { id := PyVal.int 1
    title := Option.none
    company_name := Option.some "Acme"
    candidate_required_location := Option.none
    job_type := Option.some "full_time"
    salary := Option.none
    url := Option.some "https://example.com/job/1"
    tags := Option.some ["dev"]
    description := Option.none }

/-- A concrete raw record with a `url` but no `id`, for evaluation. -/
def rawNoId : RawItem :=
  { id := PyVal.none
    title := Option.some "Backend Engineer"
    company_name := Option.none
    candidate_required_location := Option.some "Remote"
    job_type := Option.none
    salary := Option.none
    url := Option.some "https://example.com/job/2"
    tags := Option.none
    description := Option.none }

/-! ## Helper lemmas -/

/-- The empty needle is a substring of every haystack (Python `"" in s`). -/
theorem containsSub_nil (hay : List Char) : containsSub ([] : List Char) hay = true := by
  cases hay <;> simp [containsSub, List.isPrefixOf]

/-- Python `"" in s` is always true. -/
theorem pyIn_nil (s : String) : pyIn "" s = true := containsSub_nil s.data

/-- Lower-casing the empty string yields the empty string. -/
theorem pyLower_empty : pyLower "" = "" := by decide

/-- The keep-or-drop cascade of two guards equals their disjunction. -/
theorem bool_if_if_or (b c : Bool) :
    (if b then true else if c then true else false) = (b || c) := by
  cases b <;> cases c <;> simp

/-! ## Claim theorems -/

/-- C1: any upstream fetch failure (network error, non-success status,
malformed payload) is swallowed: the handler, a total function, raises
nothing, proceeds with zero fetched records, and still returns a list of
`Job` values — the fallback entries when `query` or `location` is truthy,
the empty list otherwise. -/
theorem search_jobs_swallows_upstream_failure
    (query location category job_type : Option String)
    (remote : Option Bool) (lim : Nat) :
    search_jobs query location category job_type remote lim UpstreamResponse.failure
      = if pyTruthy query || pyTruthy location
        then (fallbackJobs query location).take lim
        else [] := by
  by_cases h : (pyTruthy query || pyTruthy location) = true
  · simp [search_jobs, assembledJobs, fetchedJobs, h]
  · simp [search_jobs, assembledJobs, fetchedJobs, h]

/-- C2: under a caller-supplied `location` filter, a record is kept if and
only if the lower-cased filter is a substring of the lower-cased job
location (empty when absent), or the lower-cased, stripped filter is a
remote synonym and the job location contains some remote synonym; in
particular a record located "Anywhere in the World" survives the filter
"remote". -/
theorem location_filter_characterization :
    (∀ (l : String) (jobLoc : Option String),
        locationKeep (Option.some l) jobLoc
          = (pyIn (pyLower l) (pyLower (jobLoc.getD ""))
             || (remote_synonyms.contains (pyStrip (pyLower l))
                 && remote_synonyms.any (fun s => pyIn s (pyLower (jobLoc.getD ""))))))
    ∧ locationKeep (Option.some "remote") (Option.some "Anywhere in the World") = true := by
  constructor
  · intro l jobLoc
    by_cases h : l = ""
    · subst h
      simp [locationKeep, pyLower_empty, pyIn_nil]
    · simp only [locationKeep, if_neg h]
      exact bool_if_if_or _ _
  · decide

/-- C3: under `remote = true`, a record is kept exactly when its location
contains some member of the remote-synonym set (case-insensitive
substring), so a record located "Berlin, Germany" is dropped; under
`remote = false` or an absent `remote`, every record is kept on this
axis. -/
theorem remote_filter_characterization :
    (∀ jobLoc : Option String,
        remoteKeep (Option.some true) jobLoc
          = remote_synonyms.any (fun s => pyIn s (pyLower (jobLoc.getD ""))))
    ∧ remoteKeep (Option.some true) (Option.some "Berlin, Germany") = false
    ∧ (∀ jobLoc : Option String,
        remoteKeep (Option.some false) jobLoc = true
        ∧ remoteKeep Option.none jobLoc = true) := by
  refine ⟨?_, by decide, fun jobLoc => ⟨rfl, rfl⟩⟩
  intro jobLoc
  cases h : remote_synonyms.any (fun s => pyIn s (pyLower (jobLoc.getD ""))) <;>
    simp [remoteKeep, remote_synonyms] at h ⊢ <;> simp [h]

/-- C4: fallback entries are synthesized exactly when the fetched-and-
filtered list is empty and the caller supplied a truthy (non-empty) `query`
or `location`; with an unreachable provider and neither parameter supplied,
the handler returns the empty list. -/
theorem fallback_synthesis_condition :
    (∀ (query location : Option String) (remote : Option Bool)
        (upstream : UpstreamResponse),
      (fetchedJobs location remote upstream = [] →
        (pyTruthy query ∨ pyTruthy location) →
        assembledJobs query location remote upstream = fallbackJobs query location)
      ∧ (fetchedJobs location remote upstream ≠ [] →
        assembledJobs query location remote upstream
          = fetchedJobs location remote upstream)
      ∧ (¬ pyTruthy query ∧ ¬ pyTruthy location →
        assembledJobs query location remote upstream
          = fetchedJobs location remote upstream))
    ∧ search_jobs Option.none Option.none Option.none Option.none Option.none 50
        UpstreamResponse.failure = [] := by
  constructor
  · intro query location remote upstream
    refine ⟨?_, ?_, ?_⟩
    · intro h ht
      unfold assembledJobs
      rw [h]
      have hb : (pyTruthy query || pyTruthy location) = true := by
        rcases ht with h1 | h1 <;> simp [h1]
      simp [hb]
    · intro h
      unfold assembledJobs
      have hb : (fetchedJobs location remote upstream).isEmpty = false := by
        simpa [List.isEmpty_iff] using h
      simp [hb]
    · intro h
      unfold assembledJobs
      have h1 : pyTruthy query = false := by simpa using h.1
      have h2 : pyTruthy location = false := by simpa using h.2
      simp [h1, h2]
  · decide

/-- C4 witness: the three guards of `fallback_synthesis_condition`
discharged at concrete inputs — a truthy query over a failed fetch yields
the fallback list, a successful fetch with one surviving record passes
through, and an all-absent request passes the empty fetch through. -/
theorem fallback_synthesis_condition_witness :
    assembledJobs (Option.some "engineer") Option.none Option.none
        UpstreamResponse.failure
      = fallbackJobs (Option.some "engineer") Option.none
    ∧ assembledJobs Option.none Option.none Option.none
        (UpstreamResponse.success [rawNoTitle])
      = fetchedJobs Option.none Option.none (UpstreamResponse.success [rawNoTitle])
    ∧ assembledJobs Option.none Option.none Option.none UpstreamResponse.failure
      = fetchedJobs Option.none Option.none UpstreamResponse.failure :=
  ⟨(fallback_synthesis_condition.1 (Option.some "engineer") Option.none Option.none
      UpstreamResponse.failure).1 rfl (Or.inl (by decide)),
   (fallback_synthesis_condition.1 Option.none Option.none Option.none
      (UpstreamResponse.success [rawNoTitle])).2.1 (by decide),
   (fallback_synthesis_condition.1 Option.none Option.none Option.none
      UpstreamResponse.failure).2.2 (by decide)⟩

/-- C5: whenever fallback synthesis fires it produces exactly three entries
in fixed order with ids fallback-0/1/2, titles of the form
`Search '<joined terms>' on <Provider>`, and literal web-search URLs with
spaces encoded as `+` (Google, Indeed) or `%20` (LinkedIn); the joined
terms are `query` and `location` joined by one space, omitting whichever is
absent or empty; with an unreachable provider and query "engineer" the
handler returns exactly the three entries, each title containing
"engineer". -/
theorem fallback_entries_shape :
    (∀ query location : Option String,
        (fallbackJobs query location).map Job.id
          = ["fallback-0", "fallback-1", "fallback-2"]
        ∧ (fallbackJobs query location).map Job.title
          = ["Search \x27" ++ joinTerms query location ++ "\x27 on Google Jobs",
             "Search \x27" ++ joinTerms query location ++ "\x27 on LinkedIn",
             "Search \x27" ++ joinTerms query location ++ "\x27 on Indeed"]
        ∧ (fallbackJobs query location).map Job.url
          = ["https://www.google.com/search?q="
               ++ pyReplaceSpaces (joinTerms query location) "+" ++ "+jobs",
             "https://www.linkedin.com/jobs/search/?keywords="
               ++ pyReplaceSpaces (joinTerms query location) "%20",
             "https://www.indeed.com/jobs?q="
               ++ pyReplaceSpaces (joinTerms query location) "+"])
    ∧ (∀ q l : String,
        joinTerms (Option.some q) (Option.some l)
          = (if q = "" then (if l = "" then "" else l)
             else if l = "" then q else q ++ " " ++ l)
        ∧ joinTerms (Option.some q) Option.none = (if q = "" then "" else q)
        ∧ joinTerms Option.none (Option.some l) = (if l = "" then "" else l))
    ∧ search_jobs (Option.some "engineer") Option.none Option.none Option.none
        Option.none 50 UpstreamResponse.failure
      = [{ id := "fallback-0", title := "Search \x27engineer\x27 on Google Jobs",
           company := Option.none, location := Option.none, type := Option.none,
           salary := Option.none,
           url := "https://www.google.com/search?q=engineer+jobs",
           source := "Google Jobs", tags := Option.none, description := Option.none },
         { id := "fallback-1", title := "Search \x27engineer\x27 on LinkedIn",
           company := Option.none, location := Option.none, type := Option.none,
           salary := Option.none,
           url := "https://www.linkedin.com/jobs/search/?keywords=engineer",
           source := "LinkedIn", tags := Option.none, description := Option.none },
         { id := "fallback-2", title := "Search \x27engineer\x27 on Indeed",
           company := Option.none, location := Option.none, type := Option.none,
           salary := Option.none,
           url := "https://www.indeed.com/jobs?q=engineer",
           source := "Indeed", tags := Option.none, description := Option.none }]
    ∧ (search_jobs (Option.some "engineer") Option.none Option.none Option.none
        Option.none 50 UpstreamResponse.failure).all
          (fun j => pyIn "engineer" j.title) = true := by
  refine ⟨?_, ?_, by decide, by decide⟩
  · intro query location
    refine ⟨?_, ?_, ?_⟩
    · simp only [fallbackJobs, fallbackProviders, List.enum, List.enumFrom, List.map]
      decide
    · simp [fallbackJobs, fallbackProviders, List.enum, List.enumFrom,
        String.append_assoc]
    · simp [fallbackJobs, fallbackProviders, List.enum, List.enumFrom,
        String.append_assoc]
  · intro q l
    by_cases hq : q = "" <;> by_cases hl : l = "" <;>
      simp [joinTerms, pyJoin, hq, hl]

/-- C6: for every limit in [1,200] and every upstream response, the handler
returns an order-preserving prefix of the assembled (filtered plus
fallback) list, of length at most the limit. -/
theorem returned_list_bounded_prefix
    (query location category job_type : Option String)
    (remote : Option Bool) (lim : Nat) (upstream : UpstreamResponse)
    (h1 : 1 ≤ lim) (h2 : lim ≤ 200) :
    (search_jobs query location category job_type remote lim upstream).length ≤ lim
    ∧ ∃ rest, assembledJobs query location remote upstream
        = search_jobs query location category job_type remote lim upstream ++ rest := by
  constructor
  · simp [search_jobs, List.length_take]
  · exact ⟨(assembledJobs query location remote upstream).drop lim,
      (List.take_append_drop lim (assembledJobs query location remote upstream)).symm⟩

/-- C6 witness: the bound and prefix property at limit 50 over a failed
upstream fetch with query "engineer". -/
theorem returned_list_bounded_prefix_witness :
    (search_jobs (Option.some "engineer") Option.none Option.none Option.none
        Option.none 50 UpstreamResponse.failure).length ≤ 50
    ∧ ∃ rest, assembledJobs (Option.some "engineer") Option.none Option.none
        UpstreamResponse.failure
      = search_jobs (Option.some "engineer") Option.none Option.none Option.none
          Option.none 50 UpstreamResponse.failure ++ rest :=
  returned_list_bounded_prefix (Option.some "engineer") Option.none Option.none
    Option.none Option.none 50 UpstreamResponse.failure (by decide) (by decide)

/-- C7: normalization maps provider fields directly — company from
company_name, location from candidate_required_location, type from
job_type, salary, tags and description unchanged (including absent/null) —
and the title of a record lacking one is the literal "Untitled". -/
theorem normalize_direct_field_mapping (item : RawItem) (u : String)
    (hu : item.url = Option.some u) :
    ∃ job, normalizeJob item = Option.some job
      ∧ (item.title = Option.none → job.title = "Untitled")
      ∧ job.company = item.company_name
      ∧ job.location = item.candidate_required_location
      ∧ job.type = item.job_type
      ∧ job.salary = item.salary
      ∧ job.tags = item.tags
      ∧ job.description = item.description := by
  refine ⟨{ id := pyStr item.id, title := pyOr item.title "Untitled",
            company := item.company_name, location := item.candidate_required_location,
            type := item.job_type, salary := item.salary, url := u,
            source := "Remotive", tags := item.tags, description := item.description },
          ?_, ?_, rfl, rfl, rfl, rfl, rfl, rfl⟩
  · simp [normalizeJob, hu]
  · intro ht
    simp [pyOr, ht]

/-- C7 witness: field mapping evaluated on a concrete record that has a
url but no title. -/
theorem normalize_direct_field_mapping_witness :
    ∃ job, normalizeJob rawNoTitle = Option.some job
      ∧ (rawNoTitle.title = Option.none → job.title = "Untitled")
      ∧ job.company = rawNoTitle.company_name
      ∧ job.location = rawNoTitle.candidate_required_location
      ∧ job.type = rawNoTitle.job_type
      ∧ job.salary = rawNoTitle.salary
      ∧ job.tags = rawNoTitle.tags
      ∧ job.description = rawNoTitle.description :=
  normalize_direct_field_mapping rawNoTitle "https://example.com/job/1" rfl

/-- C8: the handler is deterministic — identical query parameters and an
identical upstream response give identical output lists.  The embedding is
a pure function of exactly these inputs: the source reads no clock, no
randomness and no mutable state on this path. -/
theorem search_jobs_deterministic (query location category job_type : Option String)
    (remote : Option Bool) (lim : Nat) (u1 u2 : UpstreamResponse) (h : u1 = u2) :
    search_jobs query location category job_type remote lim u1
      = search_jobs query location category job_type remote lim u2 := by
  rw [h]

/-- C8 witness: two invocations against the same failed upstream agree. -/
theorem search_jobs_deterministic_witness :
    search_jobs Option.none Option.none Option.none Option.none Option.none 50
        UpstreamResponse.failure
      = search_jobs Option.none Option.none Option.none Option.none Option.none 50
        UpstreamResponse.failure :=
  search_jobs_deterministic Option.none Option.none Option.none Option.none Option.none
    50 UpstreamResponse.failure UpstreamResponse.failure rfl

/-- C9: the normalized id is the Python string conversion of the provider's
id value; a record without an id field gets the literal string "None". -/
theorem normalized_id_stringification (item : RawItem) (u : String)
    (hu : item.url = Option.some u) :
    ∃ job, normalizeJob item = Option.some job
      ∧ job.id = pyStr item.id
      ∧ (item.id = PyVal.none → job.id = "None") := by
  refine ⟨{ id := pyStr item.id, title := pyOr item.title "Untitled",
            company := item.company_name, location := item.candidate_required_location,
            type := item.job_type, salary := item.salary, url := u,
            source := "Remotive", tags := item.tags, description := item.description },
          ?_, rfl, ?_⟩
  · simp [normalizeJob, hu]
  · intro hid
    simp [pyStr, hid]

/-- C9 witness: stringification evaluated on a concrete record whose id is
absent. -/
theorem normalized_id_stringification_witness :
    ∃ job, normalizeJob rawNoId = Option.some job
      ∧ job.id = pyStr rawNoId.id
      ∧ (rawNoId.id = PyVal.none → job.id = "None") :=
  normalized_id_stringification rawNoId "https://example.com/job/2" rfl

/-- C10: every synthesized fallback entry carries the caller's `location`
parameter (possibly absent) as its location, its provider name — Google
Jobs, LinkedIn or Indeed — as its source, and nothing for company, type,
salary, tags and description. -/
theorem fallback_fields_constant (query location : Option String) :
    (fallbackJobs query location).map Job.location = [location, location, location]
    ∧ (fallbackJobs query location).map Job.source = ["Google Jobs", "LinkedIn", "Indeed"]
    ∧ (fallbackJobs query location).map Job.company = [Option.none, Option.none, Option.none]
    ∧ (fallbackJobs query location).map Job.type = [Option.none, Option.none, Option.none]
    ∧ (fallbackJobs query location).map Job.salary = [Option.none, Option.none, Option.none]
    ∧ (fallbackJobs query location).map Job.tags = [Option.none, Option.none, Option.none]
    ∧ (fallbackJobs query location).map Job.description
        = [Option.none, Option.none, Option.none] :=
  ⟨rfl, rfl, rfl, rfl, rfl, rfl, rfl⟩
